import Mathlib

/-!
Shallow embedding of the Modern360 assessment platform (Flask + SQLAlchemy).
The database is modelled as lists of rows; each HTTP handler that the claims
concern is modelled as a pure function on the database state.  Timestamps are
modelled as natural numbers, JSON blobs as strings.
-/

namespace Modern360

/-- Row of the `user` table (src/app.py, class User). -/
structure User where
  id : Nat
  email : String
  name : String
  company_id : Option Nat
  role : String
  is_active : Bool
deriving Repr, DecidableEq

/-- Row of the `assessment` table (src/app.py, class Assessment). -/
structure Assessment where
  id : Nat
  title : String
  creator_id : Nat
  company_id : Nat
  is_active : Bool
deriving Repr, DecidableEq

/-- Row of the `question` table (src/app.py, class Question); only the fields
the claims touch. -/
structure Question where
  id : Nat
  assessment_id : Nat
deriving Repr, DecidableEq

/-- Row of the `invitation` table (src/app.py, class Invitation). -/
structure Invitation where
  id : Nat
  assessment_id : Nat
  sender_id : Nat
  email : String
  token : String
  responded_at : Option Nat
  is_completed : Bool
deriving Repr, DecidableEq

/-- Row of the `assessment_participant` table (src/app.py,
class AssessmentParticipant). -/
structure AssessmentParticipant where
  id : Nat
  assessment_id : Nat
  assessee_id : Nat
  assessor_id : Option Nat
  assessor_relationship : Option String
  self_assessment_completed : Bool
  assessor_assessment_completed : Bool
  self_assessment_date : Option Nat
  assessor_assessment_date : Option Nat
deriving Repr, DecidableEq

/-- Row of the `assessment_response` table (src/app.py,
class AssessmentResponse). -/
structure AssessmentResponse where
  id : Nat
  assessment_id : Nat
  user_id : Option Nat
  invitation_id : Option Nat
  participant_id : Option Nat
  responses : String
  response_type : String
deriving Repr, DecidableEq

/-- The whole database. -/
structure DB where
  users : List User
  assessments : List Assessment
  questions : List Question
  invitations : List Invitation
  participants : List AssessmentParticipant
  responses : List AssessmentResponse
deriving Repr, DecidableEq

/-- `Invitation.query.filter_by(token=token).first()`. -/
def findInvitationByToken (db : DB) (token : String) : Option Invitation :=
  db.invitations.find? (fun i => i.token == token)

/-- `AssessmentParticipant.query.get(pid)`. -/
def getParticipant (db : DB) (pid : Nat) : Option AssessmentParticipant :=
  db.participants.find? (fun p => p.id == pid)

/-- `User.query.get(uid)`. -/
def getUser (db : DB) (uid : Nat) : Option User :=
  db.users.find? (fun u => u.id == uid)

/-- Python truthiness of the optional integer `participant_id` taken from the
JSON body: `None` and `0` are falsy. -/
def intTruthy : Option Nat → Bool
  | none => false
  | some n => n != 0

/-- Python truthiness of `not participant.assessor_id`:
`None` and `0` are falsy, so the negation is truthy exactly there. -/
def optFalsy : Option Nat → Bool
  | none => true
  | some n => n == 0

/-- Errors surfaced by `submit_assessment`: the 404 from `first_or_404`, the
400 "Assessment already completed" reply, and the 500 reply produced by the
`except` branch after `db.session.rollback()`. -/
inductive SubmitError
  | NotFound
  | AlreadyCompleted
  | ServerError
deriving Repr, DecidableEq

/-- The JSON body of a submission: `responses` blob and the optional
`participant_id`. -/
structure SubmitInput where
  responses : String
  participant_id : Option Nat
deriving Repr, DecidableEq

/-- The `response_type` computation of `submit_assessment`
(src/app.py lines 460-465): start from 'assessor'; if `participant_id` is
truthy, resolve it, and if the row exists with a falsy `assessor_id` the type
becomes 'self'. -/
def determineResponseType (db : DB) (pid : Option Nat) : String :=
  if intTruthy pid then
    match getParticipant db (pid.getD 0) with
    | some p => if optFalsy p.assessor_id then "self" else "assessor"
    | none => "assessor"
  else "assessor"

/-- `submit_assessment` (src/app.py lines 448-498).  `now` is
`datetime.utcnow()`, `newResponseId` the id the database assigns to the new
response row, and `raiseExn` models an exception raised anywhere inside the
`try` block (including at `db.session.commit()`); the `except` branch calls
`db.session.rollback()`, so the persisted state is the original one. -/
def submit_assessment (db : DB) (token : String) (input : SubmitInput)
    (now : Nat) (newResponseId : Nat) (raiseExn : Bool) :
    Except SubmitError Unit × DB :=
  match findInvitationByToken db token with
  | none => (Except.error SubmitError.NotFound, db)
  | some inv =>
    if inv.is_completed then
      (Except.error SubmitError.AlreadyCompleted, db)
    else
      let rt := determineResponseType db input.participant_id
      let response : AssessmentResponse :=
        { id := newResponseId
          assessment_id := inv.assessment_id
          user_id := none
          invitation_id := some inv.id
          participant_id := input.participant_id
          responses := input.responses
          response_type := rt }
      let invitations := db.invitations.map (fun i =>
        if i.id == inv.id then
          { i with is_completed := true, responded_at := some now }
        else i)
      let participants :=
        if intTruthy input.participant_id then
          match getParticipant db (input.participant_id.getD 0) with
          | some p =>
            db.participants.map (fun q =>
              if q.id == p.id then
                if rt == "self" then
                  { q with self_assessment_completed := true,
                           self_assessment_date := some now }
                else
                  { q with assessor_assessment_completed := true,
                           assessor_assessment_date := some now }
              else q)
          | none => db.participants
        else db.participants
      let staged : DB :=
        { db with invitations := invitations, participants := participants,
                  responses := db.responses ++ [response] }
      if raiseExn then (Except.error SubmitError.ServerError, db)
      else (Except.ok (), staged)

/-- One entry of the parsed `assessors` form field of
`admin_create_assessment`: an assessor id and a relationship label. -/
structure AssessorInfo where
  id : Nat
  relationship : String
deriving Repr, DecidableEq

/-- The self-assessment participant row added for an assessee
(src/admin_app.py lines 727-733 and 909-915); the database assigns the id
later. -/
def mkSelfRow (assessment_id assessee_id : Nat) : AssessmentParticipant :=
  { id := 0
    assessment_id := assessment_id
    assessee_id := assessee_id
    assessor_id := none
    assessor_relationship := none
    self_assessment_completed := false
    assessor_assessment_completed := false
    self_assessment_date := none
    assessor_assessment_date := none }

/-- An assessor participant row (src/admin_app.py lines 740-748 and 919-925). -/
def mkAssessorRow (assessment_id assessee_id assessor_id : Nat)
    (relationship : Option String) : AssessmentParticipant :=
  { id := 0
    assessment_id := assessment_id
    assessee_id := assessee_id
    assessor_id := some assessor_id
    assessor_relationship := relationship
    self_assessment_completed := false
    assessor_assessment_completed := false
    self_assessment_date := none
    assessor_assessment_date := none }

/-- Replace the placeholder ids of freshly built rows by consecutive
database-assigned ids starting at `base`. -/
def assignIds (base : Nat) (rows : List AssessmentParticipant) :
    List AssessmentParticipant :=
  (rows.zip (List.range rows.length)).map (fun x => { x.1 with id := base + x.2 })

/-- The participant rows built by the creation loop of
`admin_create_assessment` (src/admin_app.py lines 722-749): for each assessee
one self-assessment row, then one assessor row per entry of `assessor_data`
whose id differs from the assessee id. -/
def create_assessment_participant_rows (assessment_id : Nat)
    (assessee_ids : List Nat) (assessor_data : List AssessorInfo) :
    List AssessmentParticipant :=
  assessee_ids.flatMap (fun assessee =>
    mkSelfRow assessment_id assessee ::
      (assessor_data.filter (fun info => info.id != assessee)).map
        (fun info => mkAssessorRow assessment_id assessee info.id
          (some info.relationship)))

/-- The participant-creation effect of `admin_create_assessment`
(src/admin_app.py lines 665-751): the new assessment plus its participant
rows are persisted, and `participants_created` (the second component) counts
the rows added. -/
def admin_create_assessment (db : DB) (assessment : Assessment)
    (assessee_ids : List Nat) (assessor_data : List AssessorInfo)
    (baseId : Nat) : DB × Nat :=
  let rows := assignIds baseId
    (create_assessment_participant_rows assessment.id assessee_ids assessor_data)
  ({ db with assessments := db.assessments ++ [assessment],
             participants := db.participants ++ rows },
   rows.length)

/-- `admin_add_participant` (src/admin_app.py lines 895-933): one
self-assessment row for the assessee, then one assessor row per submitted
assessor id different from the assessee id (no relationship label on this
path). -/
def admin_add_participant (db : DB) (assessment_id assessee_id : Nat)
    (assessor_ids : List Nat) (baseId : Nat) : DB :=
  let rows := mkSelfRow assessment_id assessee_id ::
    (assessor_ids.filter (fun a => a != assessee_id)).map
      (fun a => mkAssessorRow assessment_id assessee_id a none)
  { db with participants := db.participants ++ assignIds baseId rows }

/-- The recipient email of the invitation generated for a participant row:
the assessee's email for a self-assessment row, the assessor's email
otherwise (src/admin_app.py lines 945-975). -/
def invitationEmail (db : DB) (p : AssessmentParticipant) : String :=
  match p.assessor_id with
  | none => ((getUser db p.assessee_id).map (fun u => u.email)).getD ""
  | some a => ((getUser db a).map (fun u => u.email)).getD ""

/-- `admin_send_assessment_invitations` (src/admin_app.py lines 936-981):
for every participant row of the assessment one Invitation row is added to
the session and committed at the end; `sent_count` (the second component) is
incremented only when the email dispatch for that participant does not raise,
which `emailOk` models per participant position.  `tokens` models
`secrets.token_urlsafe(32)` per position, `baseId` the database-assigned
invitation ids. -/
def admin_send_assessment_invitations (db : DB) (assessment_id : Nat)
    (tokens : Nat → String) (emailOk : Nat → Bool) (baseId : Nat) :
    DB × Nat :=
  let ps := db.participants.filter (fun p => p.assessment_id == assessment_id)
  let idxs := List.range ps.length
  let newInvs := (ps.zip idxs).map (fun x =>
    { id := baseId + x.2
      assessment_id := assessment_id
      sender_id := 1
      email := invitationEmail db x.1
      token := tokens x.2
      responded_at := none
      is_completed := false : Invitation })
  let sent_count := (idxs.filter emailOk).length
  ({ db with invitations := db.invitations ++ newInvs }, sent_count)

/-- `admin_delete_assessment` (src/admin_app.py lines 986-1013): delete all
responses, participants, questions and invitations of the assessment, then
the assessment itself, in one transaction; `raiseExn` models an exception
inside the `try` block, answered by `db.session.rollback()`.  The boolean
result tells whether the deletion was committed. -/
def admin_delete_assessment (db : DB) (assessment_id : Nat)
    (raiseExn : Bool) : DB × Bool :=
  match db.assessments.find? (fun a => a.id == assessment_id) with
  | none => (db, false)
  | some _ =>
    let staged : DB :=
      { db with
        responses := db.responses.filter
          (fun r => r.assessment_id != assessment_id)
        participants := db.participants.filter
          (fun p => p.assessment_id != assessment_id)
        questions := db.questions.filter
          (fun q => q.assessment_id != assessment_id)
        invitations := db.invitations.filter
          (fun i => i.assessment_id != assessment_id)
        assessments := db.assessments.filter
          (fun a => a.id != assessment_id) }
    if raiseExn then (db, false) else (staged, true)

/-- Does some active assessment row carry this id?  Models the SQL join on
`Assessment` with `Assessment.is_active == True`. -/
def assessmentActiveB (db : DB) (assessment_id : Nat) : Bool :=
  db.assessments.any (fun a => a.id == assessment_id && a.is_active)

/-- The four blocking checks of `admin_delete_user`
(src/admin_app.py lines 394-429): active created assessments, active
participations as assessee, active participations as assessor, and pending
invitations addressed to the user's email on active assessments. -/
def userActiveInvolvement (db : DB) (u : User) : Bool :=
  db.assessments.any (fun a => a.creator_id == u.id && a.is_active)
  || db.participants.any (fun p =>
       p.assessee_id == u.id && assessmentActiveB db p.assessment_id)
  || db.participants.any (fun p =>
       p.assessor_id == some u.id && assessmentActiveB db p.assessment_id)
  || db.invitations.any (fun i =>
       i.email == u.email && !i.is_completed
         && assessmentActiveB db i.assessment_id)

/-- `admin_delete_user` (src/admin_app.py lines 389-464).  If the user exists
and has no active involvement: delete all responses with this `user_id` and
all invitations with this `sender_id`; then, for each inactive assessment the
user created, delete its questions, invitations, responses, participants and
the assessment; then delete the user's participation rows whose assessment is
inactive; finally delete the user.  The boolean result tells whether deletion
happened. -/
def admin_delete_user (db : DB) (user_id : Nat) : DB × Bool :=
  match getUser db user_id with
  | none => (db, false)
  | some u =>
    if userActiveInvolvement db u then (db, false)
    else
      let db1 : DB :=
        { db with
          responses := db.responses.filter (fun r => r.user_id != some user_id)
          invitations := db.invitations.filter
            (fun i => i.sender_id != user_id) }
      let inactiveCreated := db.assessments.filter
        (fun a => a.creator_id == user_id && !a.is_active)
      let db2 : DB :=
        { db1 with
          questions := db1.questions.filter
            (fun q => !(inactiveCreated.any (fun a => a.id == q.assessment_id)))
          invitations := db1.invitations.filter
            (fun i => !(inactiveCreated.any (fun a => a.id == i.assessment_id)))
          responses := db1.responses.filter
            (fun r => !(inactiveCreated.any (fun a => a.id == r.assessment_id)))
          participants := db1.participants.filter
            (fun p => !(inactiveCreated.any (fun a => a.id == p.assessment_id)))
          assessments := db1.assessments.filter
            (fun a => !(inactiveCreated.any (fun b => b.id == a.id))) }
      let db3 : DB :=
        { db2 with
          participants := db2.participants.filter (fun p =>
            !((p.assessee_id == user_id || p.assessor_id == some user_id)
              && db2.assessments.any (fun a =>
                   a.id == p.assessment_id && !a.is_active))) }
      ({ db3 with users := db3.users.filter (fun v => v.id != user_id) }, true)

/-- Invariant of the participant table: no row names its assessee as its own
assessor. -/
def noSelfAssessor (db : DB) : Prop :=
  ∀ p ∈ db.participants, p.assessor_id ≠ some p.assessee_id

/-! Concrete fixture data used to instantiate the theorems. -/

/-- Fixture user A (the assessee). -/
def userA : User :=
  { id := 1, email := "a@x", name := "A", company_id := some 1,
    role := "user", is_active := true }

/-- Fixture user B (the assessor). -/
def userB : User :=
  { id := 2, email := "b@x", name := "B", company_id := some 1,
    role := "user", is_active := true }

/-- Fixture user C (a bystander with no active involvement). -/
def userC : User :=
  { id := 3, email := "c@x", name := "C", company_id := some 1,
    role := "user", is_active := true }

/-- Fixture assessment, active, created by user B. -/
def assess1 : Assessment :=
  { id := 1, title := "Q1 Review", creator_id := 2, company_id := 1,
    is_active := true }

/-- Fixture invitation with a pending token. -/
def invPending : Invitation :=
  { id := 1, assessment_id := 1, sender_id := 1, email := "b@x",
    token := "tpend", responded_at := none, is_completed := false }

/-- Fixture invitation whose token was already redeemed. -/
def invDone : Invitation :=
  { id := 2, assessment_id := 1, sender_id := 1, email := "a@x",
    token := "tdone", responded_at := some 5, is_completed := true }

/-- Fixture self-assessment participant row (assessor null). -/
def pSelf : AssessmentParticipant :=
  { id := 1, assessment_id := 1, assessee_id := 1, assessor_id := none,
    assessor_relationship := none, self_assessment_completed := false,
    assessor_assessment_completed := false, self_assessment_date := none,
    assessor_assessment_date := none }

/-- Fixture assessor participant row (user B assesses user A). -/
def pAssessor : AssessmentParticipant :=
  { id := 2, assessment_id := 1, assessee_id := 1, assessor_id := some 2,
    assessor_relationship := some "Manager", self_assessment_completed := false,
    assessor_assessment_completed := false, self_assessment_date := none,
    assessor_assessment_date := none }

/-- The main fixture database. -/
def db0 : DB :=
  { users := [userA, userB]
    assessments := [assess1]
    questions := [{ id := 1, assessment_id := 1 }]
    invitations := [invPending, invDone]
    participants := [pSelf, pAssessor]
    responses := [] }

/-- The fixture assessor row after its assessor assessment was stamped at
time 4. -/
def pAssessorDone : AssessmentParticipant :=
  { pAssessor with assessor_assessment_completed := true,
                   assessor_assessment_date := some 4 }

/-- Fixture invitation sent by user C for the active assessment. -/
def invBySenderC : Invitation :=
  { id := 9, assessment_id := 1, sender_id := 3, email := "b@x",
    token := "tsent", responded_at := none, is_completed := false }

/-- Fixture database for user deletion: user C sent an invitation for the
active assessment but has no blocking involvement. -/
def dbC : DB :=
  { users := [userB, userC]
    assessments := [assess1]
    questions := []
    invitations := [invBySenderC]
    participants := []
    responses := [] }

/-- Fixture response authored by user A on the active assessment. -/
def respA : AssessmentResponse :=
  { id := 1, assessment_id := 1, user_id := some 1, invitation_id := some 1,
    participant_id := some 1, responses := "{}", response_type := "self" }

/-- Fixture database for the user-deletion frame property: user C has no
involvement at all, while the active assessment 1 owns a pending invitation,
two participant rows and a response by user A. -/
def dbW : DB :=
  { users := [userA, userC]
    assessments := [assess1]
    questions := []
    invitations := [invPending]
    participants := [pSelf, pAssessor]
    responses := [respA] }

/-! Helper lemmas. -/

lemma getParticipant_mem {db : DB} {pid : Nat} {p : AssessmentParticipant}
    (h : getParticipant db pid = some p) : p ∈ db.participants ∧ p.id = pid := by
  unfold getParticipant at h
  refine ⟨List.mem_of_find?_eq_some h, ?_⟩
  have hp := List.find?_some h
  simpa using hp

lemma determineResponseType_cases (db : DB) (pid : Option Nat) :
    determineResponseType db pid = "self"
      ∨ determineResponseType db pid = "assessor" := by
  unfold determineResponseType
  split
  · cases getParticipant db (pid.getD 0) with
    | none => simp
    | some p =>
      by_cases h : optFalsy p.assessor_id <;> simp [h]
  · simp

lemma determineResponseType_self_iff (db : DB) (pid : Option Nat)
    (hid : ∀ p ∈ db.participants, p.id ≠ 0)
    (hassr : ∀ p ∈ db.participants, p.assessor_id ≠ some 0) :
    (determineResponseType db pid = "self" ↔
      ∃ n q, pid = some n ∧ getParticipant db n = some q
        ∧ q.assessor_id = none) := by
  cases pid with
  | none => simp [determineResponseType, intTruthy]
  | some n =>
    by_cases h0 : n = 0
    · subst h0
      constructor
      · intro h
        simp [determineResponseType, intTruthy] at h
      · rintro ⟨m, q, hm, hq, -⟩
        injection hm with hm'
        subst hm'
        obtain ⟨hmem, hqid⟩ := getParticipant_mem hq
        exact absurd hqid (hid q hmem)
    · have ht : intTruthy (some n) = true := by simp [intTruthy, h0]
      cases hq : getParticipant db n with
      | none =>
        constructor
        · intro h
          simp [determineResponseType, ht, hq] at h
        · rintro ⟨m, q, hm, hq', -⟩
          injection hm with hm'
          subst hm'
          rw [hq] at hq'
          exact Option.noConfusion hq'
      | some q =>
        obtain ⟨hmem, hqid⟩ := getParticipant_mem hq
        have hne := hassr q hmem
        cases hA : q.assessor_id with
        | none =>
          constructor
          · intro _
            exact ⟨n, q, rfl, hq, hA⟩
          · intro _
            simp [determineResponseType, ht, hq, optFalsy, hA]
        | some m =>
          have hm0 : m ≠ 0 := by
            rintro rfl
            exact hne hA
          constructor
          · intro h
            simp [determineResponseType, ht, hq, optFalsy, hA, hm0] at h
          · rintro ⟨n', q', hn', hq', hA'⟩
            injection hn' with hn''
            subst hn''
            rw [hq] at hq'
            injection hq' with hq''
            subst hq''
            rw [hA] at hA'
            exact Option.noConfusion hA'

/-! C1 and C2: the idempotency guard and atomicity of `submit_assessment`. -/

/-- C1: submit_response succeeds at most once per token.  If the token's
invitation already has its completed flag set, the call fails with
AlreadyCompleted and the database (in particular the Response table) is left
exactly as it was; an unknown token fails with NotFound, also without any
mutation. -/
theorem submit_assessment_redeem_once (db : DB) (token : String)
    (input : SubmitInput) (now newResponseId : Nat) (raiseExn : Bool) :
    (∀ inv, findInvitationByToken db token = some inv →
      inv.is_completed = true →
      submit_assessment db token input now newResponseId raiseExn
        = (Except.error SubmitError.AlreadyCompleted, db))
    ∧ (findInvitationByToken db token = none →
      submit_assessment db token input now newResponseId raiseExn
        = (Except.error SubmitError.NotFound, db)) := by
  constructor
  · intro inv hfind hc
    simp [submit_assessment, hfind, hc]
  · intro h
    simp [submit_assessment, h]

/-- Witness for C1 on the fixture database: the redeemed token "tdone" is
refused with AlreadyCompleted and the state is unchanged; the unknown token
"zzz" is refused with NotFound. -/
theorem submit_assessment_redeem_once_witness :
    submit_assessment db0 "tdone"
        { responses := "{}", participant_id := none } 0 7 false
      = (Except.error SubmitError.AlreadyCompleted, db0)
    ∧ submit_assessment db0 "zzz"
        { responses := "{}", participant_id := none } 0 7 false
      = (Except.error SubmitError.NotFound, db0) :=
  ⟨(submit_assessment_redeem_once db0 "tdone"
      { responses := "{}", participant_id := none } 0 7 false).1
      invDone (by decide) (by decide),
   (submit_assessment_redeem_once db0 "zzz"
      { responses := "{}", participant_id := none } 0 7 false).2 (by decide)⟩

/-- C2: submit_response is atomic.  When an exception is raised inside the
try block, every staged mutation is rolled back — the persisted database is
exactly the initial one, so a pending invitation stays pending and the token
stays redeemable — and the error is surfaced to the caller. -/
theorem submit_assessment_exception_rollback (db : DB) (token : String)
    (input : SubmitInput) (now newResponseId : Nat) :
    (submit_assessment db token input now newResponseId true).2 = db
    ∧ ∀ inv, findInvitationByToken db token = some inv →
        inv.is_completed = false →
        (submit_assessment db token input now newResponseId true).1
          = Except.error SubmitError.ServerError := by
  constructor
  · cases h : findInvitationByToken db token with
    | none => simp [submit_assessment, h]
    | some inv =>
      by_cases hc : inv.is_completed <;> simp [submit_assessment, h, hc]
  · intro inv hfind hc
    simp [submit_assessment, hfind, hc]

/-- Witness for C2 on the fixture database: an exception while submitting the
pending token "tpend" leaves the database unchanged and surfaces the error. -/
theorem submit_assessment_exception_rollback_witness :
    (submit_assessment db0 "tpend"
        { responses := "{}", participant_id := some 2 } 0 7 true).2 = db0
    ∧ (submit_assessment db0 "tpend"
        { responses := "{}", participant_id := some 2 } 0 7 true).1
      = Except.error SubmitError.ServerError :=
  ⟨(submit_assessment_exception_rollback db0 "tpend"
      { responses := "{}", participant_id := some 2 } 0 7).1,
   (submit_assessment_exception_rollback db0 "tpend"
      { responses := "{}", participant_id := some 2 } 0 7).2
      invPending (by decide) (by decide)⟩

/-! C3: the response_type recorded by a successful submission. -/

/-- C3: for every successful submission, the recorded response_type (the one
carried by the persisted Response row) is 'self' exactly when the submission
carries a participant reference resolving to a Participant row whose assessor
is null; in every other case it is 'assessor'.  The `hid` and `hassr`
hypotheses state that SQLAlchemy autoincrement primary keys and user foreign
keys are nonzero. -/
theorem submit_assessment_response_type (db : DB) (token : String)
    (input : SubmitInput) (now newResponseId : Nat) (inv : Invitation)
    (hfind : findInvitationByToken db token = some inv)
    (hpend : inv.is_completed = false)
    (hid : ∀ p ∈ db.participants, p.id ≠ 0)
    (hassr : ∀ p ∈ db.participants, p.assessor_id ≠ some 0) :
    (submit_assessment db token input now newResponseId false).1
      = Except.ok ()
    ∧ (submit_assessment db token input now newResponseId false).2.responses
      = db.responses ++
        [{ id := newResponseId, assessment_id := inv.assessment_id,
           user_id := none, invitation_id := some inv.id,
           participant_id := input.participant_id,
           responses := input.responses,
           response_type := determineResponseType db input.participant_id }]
    ∧ (determineResponseType db input.participant_id = "self" ↔
        ∃ n q, input.participant_id = some n ∧ getParticipant db n = some q
          ∧ q.assessor_id = none)
    ∧ (determineResponseType db input.participant_id = "self"
        ∨ determineResponseType db input.participant_id = "assessor") := by
  refine ⟨?_, ?_, ?_, ?_⟩
  · simp [submit_assessment, hfind, hpend]
  · simp [submit_assessment, hfind, hpend]
  · exact determineResponseType_self_iff db input.participant_id hid hassr
  · exact determineResponseType_cases db input.participant_id

/-- Witness for C3 on the fixture database: submitting the pending token
with participant reference 1 (the self-assessment row, assessor null)
persists the response row and records type 'self'. -/
theorem submit_assessment_response_type_witness :
    (submit_assessment db0 "tpend"
        { responses := "{}", participant_id := some 1 } 0 7 false).2.responses
      = db0.responses ++
        [{ id := 7, assessment_id := invPending.assessment_id,
           user_id := none, invitation_id := some invPending.id,
           participant_id := some 1, responses := "{}",
           response_type := determineResponseType db0 (some 1) }]
    ∧ determineResponseType db0 (some 1) = "self" :=
  ⟨(submit_assessment_response_type db0 "tpend"
      { responses := "{}", participant_id := some 1 } 0 7 invPending
      (by decide) (by decide) (by decide) (by decide)).2.1,
   (submit_assessment_response_type db0 "tpend"
      { responses := "{}", participant_id := some 1 } 0 7 invPending
      (by decide) (by decide) (by decide) (by decide)).2.2.1.mpr
      ⟨1, pSelf, rfl, by decide, by decide⟩⟩

/-! C4: only the completion flag/date matching the response_type is stamped. -/

/-- C4: for every successful submission that supplies a participant
reference resolving to row `p`, only the completion flag/date matching the
determined response_type is stamped on that row: 'self' stamps
self_assessment_completed/self_assessment_date, 'assessor' stamps
assessor_assessment_completed/assessor_assessment_date, and the opposite
flag and date of the same row keep their previous values. -/
theorem submit_assessment_stamps_matching_flag (db : DB) (token : String)
    (input : SubmitInput) (now newResponseId : Nat) (inv : Invitation)
    (pid : Nat) (p : AssessmentParticipant)
    (hfind : findInvitationByToken db token = some inv)
    (hpend : inv.is_completed = false)
    (hid : ∀ x ∈ db.participants, x.id ≠ 0)
    (hnodup : (db.participants.map (fun x => x.id)).Nodup)
    (hin : input.participant_id = some pid)
    (hp : getParticipant db pid = some p) :
    ∀ q ∈ (submit_assessment db token input now newResponseId
            false).2.participants,
      q.id = p.id →
      ((determineResponseType db (some pid) = "self" →
          q.self_assessment_completed = true
          ∧ q.self_assessment_date = some now
          ∧ q.assessor_assessment_completed = p.assessor_assessment_completed
          ∧ q.assessor_assessment_date = p.assessor_assessment_date)
       ∧ (determineResponseType db (some pid) = "assessor" →
          q.assessor_assessment_completed = true
          ∧ q.assessor_assessment_date = some now
          ∧ q.self_assessment_completed = p.self_assessment_completed
          ∧ q.self_assessment_date = p.self_assessment_date)) := by
  have hpm := getParticipant_mem hp
  have hpid0 : pid ≠ 0 := by
    have h := hid p hpm.1
    rw [hpm.2] at h
    exact h
  have ht : intTruthy (some pid) = true := by
    simp [intTruthy, hpid0]
  intro q hq hqid
  have hq' : q ∈ db.participants.map (fun a =>
      if a.id = p.id then
        if determineResponseType db (some pid) = "self" then
          { a with self_assessment_completed := true,
                   self_assessment_date := some now }
        else
          { a with assessor_assessment_completed := true,
                   assessor_assessment_date := some now }
      else a) := by
    simpa [submit_assessment, hfind, hpend, hin, ht, hp] using hq
  obtain ⟨a, ha, rfl⟩ := List.mem_map.mp hq'
  by_cases hcase : a.id = p.id
  · have hap : a = p := List.inj_on_of_nodup_map hnodup ha hpm.1 hcase
    subst hap
    constructor
    · intro hself
      simp [hself]
    · intro hass
      have hns : determineResponseType db (some pid) ≠ "self" := by
        rw [hass]
        decide
      simp [hns]
  · exfalso
    simp [hcase] at hqid

/-- Witness for C4 on the fixture database: submitting the pending token
against the assessor row (id 2) stamps the assessor flag/date and leaves the
self flag/date of that row unchanged. -/
theorem submit_assessment_stamps_matching_flag_witness :
    pAssessorDone.assessor_assessment_completed = true
    ∧ pAssessorDone.assessor_assessment_date = some 4
    ∧ pAssessorDone.self_assessment_completed
      = pAssessor.self_assessment_completed
    ∧ pAssessorDone.self_assessment_date = pAssessor.self_assessment_date :=
  (submit_assessment_stamps_matching_flag db0 "tpend"
    { responses := "{}", participant_id := some 2 } 4 7 invPending 2 pAssessor
    (by decide) (by decide) (by decide) (by decide) (by decide) (by decide)
    pAssessorDone (by decide) (by decide)).2 (by decide)

/-! C10: submission with an unresolvable participant reference. -/

/-- C10: a submission on a pending token whose supplied participant_id does
not resolve to any stored Participant row still succeeds: it persists a
Response carrying the unresolved participant_id with response_type
'assessor', marks the Invitation completed, and leaves the Participant table
untouched. -/
theorem submit_assessment_unresolved_participant (db : DB) (token : String)
    (input : SubmitInput) (now newResponseId : Nat) (inv : Invitation)
    (pid : Nat)
    (hfind : findInvitationByToken db token = some inv)
    (hpend : inv.is_completed = false)
    (hin : input.participant_id = some pid)
    (hp : getParticipant db pid = none) :
    (submit_assessment db token input now newResponseId false).1
      = Except.ok ()
    ∧ (submit_assessment db token input now newResponseId false).2.participants
      = db.participants
    ∧ (submit_assessment db token input now newResponseId false).2.responses
      = db.responses ++
        [{ id := newResponseId, assessment_id := inv.assessment_id,
           user_id := none, invitation_id := some inv.id,
           participant_id := some pid, responses := input.responses,
           response_type := "assessor" }]
    ∧ ∀ i ∈ (submit_assessment db token input now newResponseId
              false).2.invitations,
        i.id = inv.id → i.is_completed = true := by
  have hrt : determineResponseType db (some pid) = "assessor" := by
    by_cases h0 : pid = 0
    · simp [determineResponseType, intTruthy, h0]
    · simp [determineResponseType, intTruthy, h0, hp]
  by_cases h0 : pid = 0
  · refine ⟨?_, ?_, ?_, ?_⟩
    · simp [submit_assessment, hfind, hpend]
    · simp [submit_assessment, hfind, hpend, hin, h0, intTruthy]
    · simp [submit_assessment, hfind, hpend, hin, hrt]
    · intro i hi hieq
      simp only [submit_assessment, hfind, hpend] at hi
      simp only [Bool.false_eq_true, if_false] at hi
      obtain ⟨j, hj, rfl⟩ := List.mem_map.mp hi
      by_cases h : j.id == inv.id
      · simp [h]
      · simp [h] at hieq
        exact absurd hieq (by simpa using h)
  · refine ⟨?_, ?_, ?_, ?_⟩
    · simp [submit_assessment, hfind, hpend]
    · simp [submit_assessment, hfind, hpend, hin, hp]
    · simp [submit_assessment, hfind, hpend, hin, hrt]
    · intro i hi hieq
      simp only [submit_assessment, hfind, hpend] at hi
      simp only [Bool.false_eq_true, if_false] at hi
      obtain ⟨j, hj, rfl⟩ := List.mem_map.mp hi
      by_cases h : j.id == inv.id
      · simp [h]
      · simp [h] at hieq
        exact absurd hieq (by simpa using h)

/-- Witness for C10 on the fixture database: participant reference 42 does
not resolve; the submission still succeeds, records 'assessor', completes
the invitation, and leaves the participant rows unchanged. -/
theorem submit_assessment_unresolved_participant_witness :
    (submit_assessment db0 "tpend"
        { responses := "{}", participant_id := some 42 } 3 7 false).1
      = Except.ok ()
    ∧ (submit_assessment db0 "tpend"
        { responses := "{}", participant_id := some 42 } 3 7 false).2.participants
      = db0.participants
    ∧ (submit_assessment db0 "tpend"
        { responses := "{}", participant_id := some 42 } 3 7 false).2.responses
      = db0.responses ++
        [{ id := 7, assessment_id := invPending.assessment_id,
           user_id := none, invitation_id := some invPending.id,
           participant_id := some 42, responses := "{}",
           response_type := "assessor" }]
    ∧ ({ invPending with
         is_completed := true
         responded_at := some 3 } : Invitation).is_completed = true :=
  ⟨(submit_assessment_unresolved_participant db0 "tpend"
      { responses := "{}", participant_id := some 42 } 3 7 invPending 42
      (by decide) (by decide) (by decide) (by decide)).1,
   (submit_assessment_unresolved_participant db0 "tpend"
      { responses := "{}", participant_id := some 42 } 3 7 invPending 42
      (by decide) (by decide) (by decide) (by decide)).2.1,
   (submit_assessment_unresolved_participant db0 "tpend"
      { responses := "{}", participant_id := some 42 } 3 7 invPending 42
      (by decide) (by decide) (by decide) (by decide)).2.2.1,
   (submit_assessment_unresolved_participant db0 "tpend"
      { responses := "{}", participant_id := some 42 } 3 7 invPending 42
      (by decide) (by decide) (by decide) (by decide)).2.2.2
      { invPending with is_completed := true, responded_at := some 3 }
      (by decide) (by decide)⟩

/-! C5: how many participant rows `admin_create_assessment` creates. -/

/-- Counterexample for C5: with assessee 1 and the assessor list
[{id 2, "Manager"}, {id 2, "Peer"}] (the same assessor id twice), the code
creates 3 participant rows, while 1 + count(distinct assessor ids excluding
self-pairs) is 2: the creation loop does not deduplicate assessor ids. -/
theorem admin_create_assessment_count_counterexample :
    (admin_create_assessment db0
      { id := 2, title := "X", creator_id := 1, company_id := 1,
        is_active := true }
      [1] [{ id := 2, relationship := "Manager" },
           { id := 2, relationship := "Peer" }] 10).2 = 3
    ∧ 1 + ((([{ id := 2, relationship := "Manager" },
              { id := 2, relationship := "Peer" }] :
             List AssessorInfo).map (fun info => info.id)).filter
            (fun a => a != 1)).dedup.length = 2
    ∧ (admin_create_assessment db0
      { id := 2, title := "X", creator_id := 1, company_id := 1,
        is_active := true }
      [1] [{ id := 2, relationship := "Manager" },
           { id := 2, relationship := "Peer" }] 10).2
      ≠ 1 + ((([{ id := 2, relationship := "Manager" },
                { id := 2, relationship := "Peer" }] :
               List AssessorInfo).map (fun info => info.id)).filter
              (fun a => a != 1)).dedup.length := by
  decide

/-- C5 (amended): for a create_assessment call with one assessee, the number
of Participant rows created equals 1 + the number of assessor entries whose
id differs from the assessee id, counted with multiplicity (duplicate
assessor ids are not deduplicated). -/
theorem admin_create_assessment_participant_count (db : DB)
    (assessment : Assessment) (assessee : Nat)
    (assessor_data : List AssessorInfo) (baseId : Nat) :
    (admin_create_assessment db assessment [assessee] assessor_data baseId).2
      = 1 + (assessor_data.filter (fun info => info.id != assessee)).length := by
  simp [admin_create_assessment, assignIds, create_assessment_participant_rows]
  omega

/-! C6: what `admin_send_assessment_invitations` counts. -/

/-- Counterexample for C6: on the fixture database (two participant rows for
assessment 1), when every email dispatch fails the handler still persists
both invitations but reports a count of 0, not 2: the reported count tracks
successful email dispatches, not persisted invitations. -/
theorem admin_send_assessment_invitations_count_counterexample :
    (admin_send_assessment_invitations db0 1 (fun _ => "tk")
      (fun _ => false) 20).2 = 0
    ∧ (admin_send_assessment_invitations db0 1 (fun _ => "tk")
      (fun _ => false) 20).1.invitations.length
      = db0.invitations.length + 2
    ∧ (admin_send_assessment_invitations db0 1 (fun _ => "tk")
      (fun _ => false) 20).2 ≠ 2 := by
  decide

/-- C6 (amended): the handler persists one invitation per participant row of
the assessment regardless of email outcome (persistence and notification are
decoupled), but the count it reports is the number of successful email
dispatches, which an email failure does reduce. -/
theorem admin_send_assessment_invitations_spec (db : DB)
    (assessment_id : Nat) (tokens : Nat → String) (emailOk : Nat → Bool)
    (baseId : Nat) :
    (admin_send_assessment_invitations db assessment_id tokens emailOk
      baseId).1.invitations.length
      = db.invitations.length
        + (db.participants.filter
            (fun p => p.assessment_id == assessment_id)).length
    ∧ (admin_send_assessment_invitations db assessment_id tokens emailOk
      baseId).2
      = ((List.range (db.participants.filter
          (fun p => p.assessment_id == assessment_id)).length).filter
          emailOk).length := by
  constructor
  · simp [admin_send_assessment_invitations]
  · rfl

/-! C7: `admin_delete_assessment` removes all children or nothing. -/

/-- C7: on success, delete_assessment leaves zero rows with that assessment
id in the Response, Participant, Question and Invitation tables and deletes
the Assessment itself; on a mid-transaction failure it rolls back, leaving
the whole database unchanged and reporting failure. -/
theorem admin_delete_assessment_spec (db : DB) (assessment_id : Nat) :
    ((admin_delete_assessment db assessment_id false).2 = true →
      (admin_delete_assessment db assessment_id false).1.responses.filter
        (fun r => r.assessment_id == assessment_id) = []
      ∧ (admin_delete_assessment db assessment_id false).1.participants.filter
        (fun p => p.assessment_id == assessment_id) = []
      ∧ (admin_delete_assessment db assessment_id false).1.questions.filter
        (fun q => q.assessment_id == assessment_id) = []
      ∧ (admin_delete_assessment db assessment_id false).1.invitations.filter
        (fun i => i.assessment_id == assessment_id) = []
      ∧ (admin_delete_assessment db assessment_id false).1.assessments.filter
        (fun a => a.id == assessment_id) = [])
    ∧ admin_delete_assessment db assessment_id true = (db, false) := by
  constructor
  · intro hsucc
    cases h : db.assessments.find? (fun a => a.id == assessment_id) with
    | none => simp [admin_delete_assessment, h] at hsucc
    | some a0 =>
      refine ⟨?_, ?_, ?_, ?_, ?_⟩ <;>
        simp [admin_delete_assessment, h, List.filter_filter]
  · cases h : db.assessments.find? (fun a => a.id == assessment_id) with
    | none => simp [admin_delete_assessment, h]
    | some a0 => simp [admin_delete_assessment, h]

/-- Witness for C7 on the fixture database: deleting assessment 1 succeeds
and empties all four child tables of its rows, and a simulated failure
leaves the database unchanged. -/
theorem admin_delete_assessment_spec_witness :
    ((admin_delete_assessment db0 1 false).1.responses.filter
        (fun r => r.assessment_id == 1) = []
      ∧ (admin_delete_assessment db0 1 false).1.participants.filter
        (fun p => p.assessment_id == 1) = []
      ∧ (admin_delete_assessment db0 1 false).1.questions.filter
        (fun q => q.assessment_id == 1) = []
      ∧ (admin_delete_assessment db0 1 false).1.invitations.filter
        (fun i => i.assessment_id == 1) = []
      ∧ (admin_delete_assessment db0 1 false).1.assessments.filter
        (fun a => a.id == 1) = [])
    ∧ admin_delete_assessment db0 1 true = (db0, false) :=
  ⟨(admin_delete_assessment_spec db0 1).1 (by decide),
   (admin_delete_assessment_spec db0 1).2⟩

/-! C9: no participant row ever has its assessee as its own assessor. -/

lemma mem_assignIds {base : Nat} {rows : List AssessmentParticipant}
    {p : AssessmentParticipant} (hp : p ∈ assignIds base rows) :
    ∃ q ∈ rows, p.assessee_id = q.assessee_id
      ∧ p.assessor_id = q.assessor_id := by
  unfold assignIds at hp
  obtain ⟨⟨q, i⟩, hx, rfl⟩ := List.mem_map.mp hp
  exact ⟨q, (List.of_mem_zip hx).1, rfl, rfl⟩

lemma create_rows_no_self {aid : Nat} {assessee_ids : List Nat}
    {ad : List AssessorInfo} {q : AssessmentParticipant}
    (hq : q ∈ create_assessment_participant_rows aid assessee_ids ad) :
    q.assessor_id ≠ some q.assessee_id := by
  unfold create_assessment_participant_rows at hq
  obtain ⟨assessee, hA, hq'⟩ := List.mem_flatMap.mp hq
  rcases List.mem_cons.mp hq' with h | h
  · subst h
    simp [mkSelfRow]
  · obtain ⟨info, hinfo, rfl⟩ := List.mem_map.mp h
    have hne : info.id ≠ assessee := by
      have h2 := (List.mem_filter.mp hinfo).2
      simpa using h2
    simpa [mkAssessorRow] using hne

/-- C9: the creation paths preserve the invariant that no Participant row
has its assessor equal to its assessee: both `admin_create_assessment` and
`admin_add_participant` skip assessor ids equal to the assessee id, so from
any state satisfying the invariant, the state after either operation still
satisfies it. -/
theorem participant_no_self_assessor_invariant (db : DB)
    (assessment : Assessment) (assessee_ids : List Nat)
    (assessor_data : List AssessorInfo) (assessment_id assessee_id : Nat)
    (assessor_ids : List Nat) (b1 b2 : Nat)
    (h : noSelfAssessor db) :
    noSelfAssessor
      (admin_create_assessment db assessment assessee_ids assessor_data b1).1
    ∧ noSelfAssessor
      (admin_add_participant db assessment_id assessee_id assessor_ids b2) := by
  constructor
  · intro p hp
    have hp' : p ∈ db.participants ++ assignIds b1
        (create_assessment_participant_rows assessment.id assessee_ids
          assessor_data) := hp
    rcases List.mem_append.mp hp' with hold | hnew
    · exact h p hold
    · obtain ⟨q, hq, he, ha⟩ := mem_assignIds hnew
      rw [ha, he]
      exact create_rows_no_self hq
  · intro p hp
    have hp' : p ∈ db.participants ++ assignIds b2
        (mkSelfRow assessment_id assessee_id ::
          (assessor_ids.filter (fun a => a != assessee_id)).map
            (fun a => mkAssessorRow assessment_id assessee_id a none)) := hp
    rcases List.mem_append.mp hp' with hold | hnew
    · exact h p hold
    · obtain ⟨q, hq, he, ha⟩ := mem_assignIds hnew
      rw [ha, he]
      rcases List.mem_cons.mp hq with hc | hc
      · subst hc
        simp [mkSelfRow]
      · obtain ⟨a, hain, rfl⟩ := List.mem_map.mp hc
        have hne : a ≠ assessee_id := by
          have h2 := (List.mem_filter.mp hain).2
          simpa using h2
        simpa [mkAssessorRow] using hne

/-- Witness for C9: starting from the fixture database (which satisfies the
invariant), creating an assessment with a self-pair in the assessor list and
adding a participant with a self-pair both preserve the invariant. -/
theorem participant_no_self_assessor_invariant_witness :
    noSelfAssessor
      (admin_create_assessment db0
        { id := 2, title := "X", creator_id := 1, company_id := 1,
          is_active := true }
        [1] [{ id := 1, relationship := "Self" },
             { id := 2, relationship := "Manager" }] 10).1
    ∧ noSelfAssessor
      (admin_add_participant db0 1 1 [1, 2] 20) :=
  participant_no_self_assessor_invariant db0
    { id := 2, title := "X", creator_id := 1, company_id := 1,
      is_active := true }
    [1] [{ id := 1, relationship := "Self" },
         { id := 2, relationship := "Manager" }] 1 1 [1, 2] 10 20
    (by intro p hp; simp [db0] at hp; rcases hp with rfl | rfl <;> decide)

/-! C8: what `admin_delete_user` deletes. -/

lemma assessmentActiveB_elim {db : DB} {aid : Nat}
    (h : assessmentActiveB db aid = true) :
    ∃ a ∈ db.assessments, a.id = aid ∧ a.is_active = true := by
  unfold assessmentActiveB at h
  obtain ⟨a, ha, hcond⟩ := List.any_eq_true.mp h
  rw [Bool.and_eq_true] at hcond
  exact ⟨a, ha, by simpa using hcond.1, hcond.2⟩

lemma active_id_is_active {db : DB} {aid : Nat}
    (hnodup : (db.assessments.map (fun a => a.id)).Nodup)
    (hact : assessmentActiveB db aid = true) :
    ∀ b ∈ db.assessments, b.id = aid → b.is_active = true := by
  intro b hb hbid
  obtain ⟨a, ha, haid, hactive⟩ := assessmentActiveB_elim hact
  have hba : b = a :=
    List.inj_on_of_nodup_map hnodup hb ha (by rw [hbid, haid])
  rw [hba]
  exact hactive

lemma inactive_created_any_eq_false {db : DB} {user_id aid : Nat}
    (hnodup : (db.assessments.map (fun a => a.id)).Nodup)
    (hact : assessmentActiveB db aid = true) :
    ((db.assessments.filter
        (fun a => a.creator_id == user_id && !a.is_active)).any
      (fun b => b.id == aid)) = false := by
  rw [List.any_eq_false]
  intro b hb
  rw [List.mem_filter] at hb
  intro hbeq
  have hbid : b.id = aid := by simpa using hbeq
  have hbact := active_id_is_active hnodup hact b hb.1 hbid
  rw [Bool.and_eq_true] at hb
  have hbin := hb.2.2
  rw [hbact] at hbin
  simp at hbin

lemma sublist_any_inactive_eq_false {db : DB} {aid : Nat}
    {l : List Assessment} (hsub : ∀ a ∈ l, a ∈ db.assessments)
    (hnodup : (db.assessments.map (fun a => a.id)).Nodup)
    (hact : assessmentActiveB db aid = true) :
    (l.any (fun a => a.id == aid && !a.is_active)) = false := by
  rw [List.any_eq_false]
  intro b hb
  intro hbeq
  rw [Bool.and_eq_true] at hbeq
  have hbid : b.id = aid := by simpa using hbeq.1
  have hbact := active_id_is_active hnodup hact b (hsub b hb) hbid
  rw [hbact] at hbeq
  simp at hbeq

/-- Counterexample for C8: in the fixture database `dbC`, user 3 has no
blocking involvement, yet deleting user 3 also deletes the invitation they
sent for the active assessment 1 — a record tied to an active assessment is
destroyed by an unblocked user deletion, because invitations are deleted by
sender id with no activity filter. -/
theorem admin_delete_user_active_record_counterexample :
    (admin_delete_user dbC 3).2 = true
    ∧ invBySenderC ∈ dbC.invitations
    ∧ assessmentActiveB dbC invBySenderC.assessment_id = true
    ∧ invBySenderC ∉ (admin_delete_user dbC 3).1.invitations := by
  decide

/-- C8 (amended): an unblocked user deletion cascades through the user's
inactive assessments and inactive participation rows, and additionally
deletes every response authored by the user and every invitation whose
sender is the user regardless of assessment activity; apart from those two
classes, no record tied to an active assessment — no assessment row, no
participant row, no invitation with a different sender, no response with a
different author — is deleted. -/
theorem admin_delete_user_active_frame (db : DB) (user_id : Nat)
    (hnodup : (db.assessments.map (fun a => a.id)).Nodup)
    (hsucc : (admin_delete_user db user_id).2 = true) :
    (∀ a ∈ db.assessments, a.is_active = true →
       a ∈ (admin_delete_user db user_id).1.assessments)
    ∧ (∀ p ∈ db.participants, assessmentActiveB db p.assessment_id = true →
       p ∈ (admin_delete_user db user_id).1.participants)
    ∧ (∀ i ∈ db.invitations, i.sender_id ≠ user_id →
       assessmentActiveB db i.assessment_id = true →
       i ∈ (admin_delete_user db user_id).1.invitations)
    ∧ (∀ r ∈ db.responses, r.user_id ≠ some user_id →
       assessmentActiveB db r.assessment_id = true →
       r ∈ (admin_delete_user db user_id).1.responses) := by
  cases hu : getUser db user_id with
  | none => simp [admin_delete_user, hu] at hsucc
  | some u =>
    by_cases hb : userActiveInvolvement db u = true
    · simp [admin_delete_user, hu, hb] at hsucc
    · have hbf : userActiveInvolvement db u = false := by
        simpa using hb
      refine ⟨?_, ?_, ?_, ?_⟩
      · intro a ha hact
        have hactB : assessmentActiveB db a.id = true := by
          rw [assessmentActiveB, List.any_eq_true]
          exact ⟨a, ha, by simp [hact]⟩
        simp only [admin_delete_user, hu, hbf, Bool.false_eq_true, if_false]
        rw [List.mem_filter]
        refine ⟨ha, ?_⟩
        rw [Bool.not_eq_eq_eq_not]
        simpa using inactive_created_any_eq_false hnodup hactB
      · intro p hp hact
        simp only [admin_delete_user, hu, hbf, Bool.false_eq_true, if_false]
        rw [List.mem_filter]
        constructor
        · rw [List.mem_filter]
          refine ⟨hp, ?_⟩
          rw [Bool.not_eq_eq_eq_not]
          simpa using inactive_created_any_eq_false hnodup hact
        · have hany := sublist_any_inactive_eq_false
            (l := db.assessments.filter (fun a =>
              !((db.assessments.filter
                  (fun x => x.creator_id == user_id && !x.is_active)).any
                 (fun b => b.id == a.id))))
            (fun a ha => (List.mem_filter.mp ha).1) hnodup hact
          rw [hany, Bool.and_false]
          rfl
      · intro i hi hsender hact
        simp only [admin_delete_user, hu, hbf, Bool.false_eq_true, if_false]
        rw [List.mem_filter]
        constructor
        · rw [List.mem_filter]
          refine ⟨hi, ?_⟩
          simpa using hsender
        · rw [Bool.not_eq_eq_eq_not]
          simpa using inactive_created_any_eq_false hnodup hact
      · intro r hr huser hact
        simp only [admin_delete_user, hu, hbf, Bool.false_eq_true, if_false]
        rw [List.mem_filter]
        constructor
        · rw [List.mem_filter]
          refine ⟨hr, ?_⟩
          simpa using huser
        · rw [Bool.not_eq_eq_eq_not]
          simpa using inactive_created_any_eq_false hnodup hact

/-- Witness for C8 (amended) on the fixture database `dbW`: deleting the
uninvolved user 3 succeeds and keeps the active assessment, its participant
row, its pending invitation (sent by user 1) and the response authored by
user 1. -/
theorem admin_delete_user_active_frame_witness :
    assess1 ∈ (admin_delete_user dbW 3).1.assessments
    ∧ pAssessor ∈ (admin_delete_user dbW 3).1.participants
    ∧ invPending ∈ (admin_delete_user dbW 3).1.invitations
    ∧ respA ∈ (admin_delete_user dbW 3).1.responses :=
  ⟨(admin_delete_user_active_frame dbW 3 (by decide) (by decide)).1
      assess1 (by decide) (by decide),
   (admin_delete_user_active_frame dbW 3 (by decide) (by decide)).2.1
      pAssessor (by decide) (by decide),
   (admin_delete_user_active_frame dbW 3 (by decide) (by decide)).2.2.1
      invPending (by decide) (by decide) (by decide),
   (admin_delete_user_active_frame dbW 3 (by decide) (by decide)).2.2.2
      respA (by decide) (by decide) (by decide)⟩

end Modern360
